import Mathlib

/-!
# Verification of the AdGuardHome client registry core

Shallow embedding of `internal/client/client.go`: the `Source` enumeration,
the per-address `Runtime` client record, and the address-keyed
`RuntimeIndex` registry, together with proofs of the specification claims.

Modelling conventions:
* Go `Source` is a `uint8`; we model it as `Fin 256`.
* Go `netip.Addr` is opaque and comparable; its zero value is not a valid
  address.  We model it as a structure carrying a validity flag and an
  opaque numeric payload.
* A Go `[]string` slot distinguishing nil from an empty non-nil slice is
  modelled as `Option (List String)`: `none` is nil (absent), `some []` is
  present-but-empty.
* The `*whois.Info` pointer is `Option WhoisInfo`, the payload opaque.
* The Go map `map[netip.Addr]*Runtime` is an association list whose
  operations preserve key uniqueness.
-/

/-- Model of `netip.Addr`: an opaque comparable address value together with
the validity of the address (the zero `netip.Addr` is invalid). -/
structure NetipAddr where
  isValid : Bool
  val : Nat
deriving DecidableEq, Repr

/-- Model of `whois.Info`: opaque structured WHOIS data, stored and returned
by the record without interpretation. -/
structure WhoisInfo where
  val : Nat
deriving DecidableEq, Repr

/-- `type Source uint8`. -/
abbrev Source := Fin 256

def SourceWHOIS : Source := 1
def SourceARP : Source := 2
def SourceRDNS : Source := 3
def SourceDHCP : Source := 4
def SourceHostsFile : Source := 5
def SourcePersistent : Source := 6

/-- `func (cs Source) String() (s string)`: the switch over the five
discovery sources, defaulting to the empty string. -/
def Source.string (cs : Source) : String :=
  if cs = SourceWHOIS then "WHOIS"
  else if cs = SourceARP then "ARP"
  else if cs = SourceRDNS then "rDNS"
  else if cs = SourceDHCP then "DHCP"
  else if cs = SourceHostsFile then "etc/hosts"
  else ""

/-- `func (cs Source) MarshalText() (text []byte, err error)`: returns the
bytes of `cs.String()` and a nil error, modelled as `Except.ok`. -/
def Source.marshalText (cs : Source) : Except Unit String :=
  Except.ok cs.string

/-- `type Runtime struct`: client information from different sources. -/
structure Runtime where
  ip : NetipAddr
  whois : Option WhoisInfo
  arp : Option (List String)
  rdns : Option (List String)
  dhcp : Option (List String)
  hostsFile : Option (List String)
deriving DecidableEq, Repr

/-- `func NewRuntime(ip netip.Addr) (r *Runtime)`: constructs a runtime
client with the given address; every other field keeps its zero value
(all slots nil). -/
def NewRuntime (ip : NetipAddr) : Runtime :=
  { ip := ip, whois := none, arp := none, rdns := none, dhcp := none,
    hostsFile := none }

/-- `func (r *Runtime) Info() (cs Source, host string)`: the switch selects
the highest-priority non-nil slot; `info` starts as an empty (non-nil)
slice and `cs` as the zero `Source`; the WHOIS case sets only `cs`. -/
def Runtime.Info (r : Runtime) : Source × String :=
  let p : Source × List String :=
    if r.hostsFile.isSome then (SourceHostsFile, r.hostsFile.getD [])
    else if r.dhcp.isSome then (SourceDHCP, r.dhcp.getD [])
    else if r.rdns.isSome then (SourceRDNS, r.rdns.getD [])
    else if r.arp.isSome then (SourceARP, r.arp.getD [])
    else if r.whois.isSome then (SourceWHOIS, [])
    else (0, [])
  match p.2 with
  | [] => (p.1, "")
  | h :: _ => (p.1, h)

/-- `func (r *Runtime) SetInfo(cs Source, hosts []string)`: a one-element
slice holding only the empty string is replaced by an empty slice, then the
switch stores it in the slot of `cs`; unhandled sources change nothing. -/
def Runtime.SetInfo (r : Runtime) (cs : Source) (hosts : List String) :
    Runtime :=
  let hs := if hosts = [""] then ([] : List String) else hosts
  if cs = SourceARP then { r with arp := some hs }
  else if cs = SourceRDNS then { r with rdns := some hs }
  else if cs = SourceDHCP then { r with dhcp := some hs }
  else if cs = SourceHostsFile then { r with hostsFile := some hs }
  else r

/-- `func (r *Runtime) WHOIS() (info *whois.Info)`. -/
def Runtime.getWHOIS (r : Runtime) : Option WhoisInfo :=
  r.whois

/-- `func (r *Runtime) SetWHOIS(info *whois.Info)`: stores the pointer as
given; the non-nil requirement is a caller contract, not checked. -/
def Runtime.SetWHOIS (r : Runtime) (info : Option WhoisInfo) : Runtime :=
  { r with whois := info }

/-- `func (r *Runtime) Unset(cs Source)`: the switch sets the slot of `cs`
to nil; unhandled sources change nothing. -/
def Runtime.Unset (r : Runtime) (cs : Source) : Runtime :=
  if cs = SourceWHOIS then { r with whois := none }
  else if cs = SourceARP then { r with arp := none }
  else if cs = SourceRDNS then { r with rdns := none }
  else if cs = SourceDHCP then { r with dhcp := none }
  else if cs = SourceHostsFile then { r with hostsFile := none }
  else r

/-- `func (r *Runtime) IsEmpty() (ok bool)`: true iff every slot is nil. -/
def Runtime.IsEmpty (r : Runtime) : Bool :=
  r.whois.isNone && r.arp.isNone && r.rdns.isNone && r.dhcp.isNone &&
    r.hostsFile.isNone

/-- `func (r *Runtime) Addr() (ip netip.Addr)`. -/
def Runtime.Addr (r : Runtime) : NetipAddr :=
  r.ip

/-- `type RuntimeIndex struct`: the map from address to runtime client,
modelled as an association list. -/
structure RuntimeIndex where
  index : List (NetipAddr × Runtime)
deriving DecidableEq, Repr

/-- `func NewRuntimeIndex() (ri *RuntimeIndex)`. -/
def NewRuntimeIndex : RuntimeIndex :=
  { index := [] }

/-- `func (ri *RuntimeIndex) Client(ip netip.Addr) (rc *Runtime, ok bool)`:
the map lookup; `none` models the not-found case (`ok = false`). -/
def RuntimeIndex.Client (ri : RuntimeIndex) (ip : NetipAddr) :
    Option Runtime :=
  (ri.index.find? fun p => p.1 = ip).map Prod.snd

/-- `func (ri *RuntimeIndex) Add(rc *Runtime)`: `ri.index[rc.Addr()] = rc`.
The map assignment replaces any entry at that key. -/
def RuntimeIndex.Add (ri : RuntimeIndex) (rc : Runtime) : RuntimeIndex :=
  { index := (ri.index.filter fun p => p.1 ≠ rc.Addr) ++ [(rc.Addr, rc)] }

/-- `func (ri *RuntimeIndex) Size() (n int)`. -/
def RuntimeIndex.Size (ri : RuntimeIndex) : Nat :=
  ri.index.length

/-- `func (ri *RuntimeIndex) Delete(ip netip.Addr)`. -/
def RuntimeIndex.Delete (ri : RuntimeIndex) (ip : NetipAddr) :
    RuntimeIndex :=
  { index := ri.index.filter fun p => p.1 ≠ ip }

/-- Loop body of `func (ri *RuntimeIndex) DeleteBySrc(src Source) (n int)`:
for each entry, unset `src`; if the record is then empty, drop the entry
and count it, otherwise keep the updated record. -/
def deleteBySrcLoop (src : Source) :
    List (NetipAddr × Runtime) → List (NetipAddr × Runtime) × Nat
  | [] => ([], 0)
  | (ip, rc) :: rest =>
    let rc := rc.Unset src
    let t := deleteBySrcLoop src rest
    if rc.IsEmpty then (t.1, t.2 + 1) else ((ip, rc) :: t.1, t.2)

/-- `func (ri *RuntimeIndex) DeleteBySrc(src Source) (n int)`: returns the
updated registry together with the number of removed clients. -/
def RuntimeIndex.DeleteBySrc (ri : RuntimeIndex) (src : Source) :
    RuntimeIndex × Nat :=
  let t := deleteBySrcLoop src ri.index
  ({ index := t.1 }, t.2)

/-! ## Helper notions used to state the claims -/

/-- The list-valued slot of the record that `cs` selects (`none` for sources
without a list slot).  Projection only; used to state per-slot claims. -/
def Runtime.nameSlot (r : Runtime) (cs : Source) : Option (List String) :=
  if cs = SourceARP then r.arp
  else if cs = SourceRDNS then r.rdns
  else if cs = SourceDHCP then r.dhcp
  else if cs = SourceHostsFile then r.hostsFile
  else none

/-- Every slot of `r` other than the one selected by `cs` is absent. -/
def Runtime.othersAbsent (r : Runtime) (cs : Source) : Prop :=
  (cs ≠ SourceWHOIS → r.whois = none) ∧
  (cs ≠ SourceARP → r.arp = none) ∧
  (cs ≠ SourceRDNS → r.rdns = none) ∧
  (cs ≠ SourceDHCP → r.dhcp = none) ∧
  (cs ≠ SourceHostsFile → r.hostsFile = none)

/-- An address that is not a valid, fully-specified network address: the
model of the zero `netip.Addr`. -/
def invalidAddr : NetipAddr := { isValid := false, val := 0 }

/-- One method call on a client record.  `Info`, `WHOIS` and `IsEmpty`
assign no field of the receiver, so applying them leaves the state as is. -/
inductive Op where
  | setInfo (cs : Source) (hosts : List String)
  | setWHOIS (info : Option WhoisInfo)
  | unset (cs : Source)
  | info
  | getWHOIS
  | isEmpty
deriving DecidableEq, Repr

/-- The record state after one method call. -/
def applyOp (r : Runtime) : Op → Runtime
  | .setInfo cs hosts => r.SetInfo cs hosts
  | .setWHOIS i => r.SetWHOIS i
  | .unset cs => r.Unset cs
  | .info => r
  | .getWHOIS => r
  | .isEmpty => r

/-- The record state after a sequence of method calls. -/
def applyOps (r : Runtime) (ops : List Op) : Runtime :=
  ops.foldl applyOp r

/-- A concrete record used by witnesses: address `⟨true, 10⟩`, DHCP data
`["host.example"]`, ARP data `["other"]`. -/
def rScenario : Runtime :=
  ((NewRuntime ⟨true, 10⟩).SetInfo SourceDHCP ["host.example"]).SetInfo
    SourceARP ["other"]

/-! ## Claims about a single client record -/

/-- C1: `Info` scans hosts file, DHCP, reverse DNS, ARP, WHOIS in that
order and returns the first non-absent source with the first name of its
sequence; the name is `""` when the winner is present-but-empty or WHOIS,
and when every slot is absent the result is the zero source and `""`. -/
theorem Info_priority (r : Runtime) :
    (∀ l, r.hostsFile = some l → r.Info = (SourceHostsFile, l.headD "")) ∧
    (r.hostsFile = none → ∀ l, r.dhcp = some l →
      r.Info = (SourceDHCP, l.headD "")) ∧
    (r.hostsFile = none → r.dhcp = none → ∀ l, r.rdns = some l →
      r.Info = (SourceRDNS, l.headD "")) ∧
    (r.hostsFile = none → r.dhcp = none → r.rdns = none → ∀ l,
      r.arp = some l → r.Info = (SourceARP, l.headD "")) ∧
    (r.hostsFile = none → r.dhcp = none → r.rdns = none → r.arp = none →
      ∀ i, r.whois = some i → r.Info = (SourceWHOIS, "")) ∧
    (r.hostsFile = none → r.dhcp = none → r.rdns = none → r.arp = none →
      r.whois = none → r.Info = (0, "")) := by
  refine ⟨?_, ?_, ?_, ?_, ?_, ?_⟩
  · intro l h
    cases l <;> simp [Runtime.Info, h]
  · intro h0 l h
    cases l <;> simp [Runtime.Info, h0, h]
  · intro h0 h1 l h
    cases l <;> simp [Runtime.Info, h0, h1, h]
  · intro h0 h1 h2 l h
    cases l <;> simp [Runtime.Info, h0, h1, h2, h]
  · intro h0 h1 h2 h3 i h
    simp [Runtime.Info, h0, h1, h2, h3, h]
  · intro h0 h1 h2 h3 h4
    simp [Runtime.Info, h0, h1, h2, h3, h4]

/-- Witness for C1 at the spec's scenario record. -/
theorem Info_priority_witness : rScenario.Info = (SourceDHCP, "host.example") :=
  (Info_priority rScenario).2.1 (by decide) ["host.example"] (by decide)

/-- C3: for each of the four list-valued sources, `SetInfo` with the
one-element sequence `[""]` stores present-but-empty, and the resulting
record equals the one produced by `SetInfo` with the empty sequence. -/
theorem SetInfo_empty_norm (r : Runtime) (cs : Source)
    (h : cs = SourceARP ∨ cs = SourceRDNS ∨ cs = SourceDHCP ∨
      cs = SourceHostsFile) :
    r.SetInfo cs [""] = r.SetInfo cs [] ∧
    (r.SetInfo cs [""]).nameSlot cs = some [] := by
  rcases h with h | h | h | h <;> subst h <;> exact ⟨rfl, rfl⟩

/-- Witness for C3 at a concrete record and the ARP source. -/
theorem SetInfo_empty_norm_witness :
    (NewRuntime ⟨true, 7⟩).SetInfo SourceARP [""] =
      (NewRuntime ⟨true, 7⟩).SetInfo SourceARP [] ∧
    ((NewRuntime ⟨true, 7⟩).SetInfo SourceARP [""]).nameSlot SourceARP =
      some [] :=
  SetInfo_empty_norm (NewRuntime ⟨true, 7⟩) SourceARP (Or.inl rfl)

/-- C5: setting a source's data and then unsetting the same source returns
that slot to absent, both for the four list-valued sources via `SetInfo`
and for WHOIS via `SetWHOIS`; if every other slot was absent, the record is
then empty. -/
theorem set_unset_absent (r : Runtime) (cs : Source) (names : List String)
    (info : WhoisInfo)
    (h : cs = SourceARP ∨ cs = SourceRDNS ∨ cs = SourceDHCP ∨
      cs = SourceHostsFile) :
    ((r.SetInfo cs names).Unset cs).nameSlot cs = none ∧
    (r.othersAbsent cs → ((r.SetInfo cs names).Unset cs).IsEmpty = true) ∧
    ((r.SetWHOIS (some info)).Unset SourceWHOIS).whois = none ∧
    (r.othersAbsent SourceWHOIS →
      ((r.SetWHOIS (some info)).Unset SourceWHOIS).IsEmpty = true) := by
  have hwho : ((r.SetWHOIS (some info)).Unset SourceWHOIS).whois = none := rfl
  have hwho2 : r.othersAbsent SourceWHOIS →
      ((r.SetWHOIS (some info)).Unset SourceWHOIS).IsEmpty = true := by
    rintro ⟨h1, h2, h3, h4, h5⟩
    simp [Runtime.IsEmpty, Runtime.Unset, Runtime.SetWHOIS, SourceWHOIS,
      SourceARP, SourceRDNS, SourceDHCP, SourceHostsFile, h2 (by decide),
      h3 (by decide), h4 (by decide), h5 (by decide)]
  rcases h with h | h | h | h <;> subst h
  · refine ⟨rfl, ?_, hwho, hwho2⟩
    rintro ⟨h1, h2, h3, h4, h5⟩
    simp [Runtime.IsEmpty, Runtime.Unset, Runtime.SetInfo, SourceWHOIS,
      SourceARP, SourceRDNS, SourceDHCP, SourceHostsFile, h1 (by decide),
      h3 (by decide), h4 (by decide), h5 (by decide)]
  · refine ⟨rfl, ?_, hwho, hwho2⟩
    rintro ⟨h1, h2, h3, h4, h5⟩
    simp [Runtime.IsEmpty, Runtime.Unset, Runtime.SetInfo, SourceWHOIS,
      SourceARP, SourceRDNS, SourceDHCP, SourceHostsFile, h1 (by decide),
      h2 (by decide), h4 (by decide), h5 (by decide)]
  · refine ⟨rfl, ?_, hwho, hwho2⟩
    rintro ⟨h1, h2, h3, h4, h5⟩
    simp [Runtime.IsEmpty, Runtime.Unset, Runtime.SetInfo, SourceWHOIS,
      SourceARP, SourceRDNS, SourceDHCP, SourceHostsFile, h1 (by decide),
      h2 (by decide), h3 (by decide), h5 (by decide)]
  · refine ⟨rfl, ?_, hwho, hwho2⟩
    rintro ⟨h1, h2, h3, h4, h5⟩
    simp [Runtime.IsEmpty, Runtime.Unset, Runtime.SetInfo, SourceWHOIS,
      SourceARP, SourceRDNS, SourceDHCP, SourceHostsFile, h1 (by decide),
      h2 (by decide), h3 (by decide), h4 (by decide)]

/-- Witness for C5: a fresh record given ARP data and then cleared of ARP
is empty. -/
theorem set_unset_absent_witness :
    (((NewRuntime ⟨true, 3⟩).SetInfo SourceARP ["x"]).Unset
      SourceARP).IsEmpty = true :=
  (set_unset_absent (NewRuntime ⟨true, 3⟩) SourceARP ["x"] ⟨1⟩
    (Or.inl rfl)).2.1
    ⟨fun _ => rfl, fun _ => rfl, fun _ => rfl, fun _ => rfl, fun _ => rfl⟩

/-- C6: `SetInfo` with a source outside the four list-valued ones (such as
persistent or WHOIS) changes nothing, and `Unset` with a source outside the
five handled ones changes nothing; neither can fail. -/
theorem unsupported_source_noop (r : Runtime) (cs : Source)
    (hosts : List String)
    (h : cs ≠ SourceARP ∧ cs ≠ SourceRDNS ∧ cs ≠ SourceDHCP ∧
      cs ≠ SourceHostsFile) :
    r.SetInfo cs hosts = r ∧ (cs ≠ SourceWHOIS → r.Unset cs = r) := by
  obtain ⟨h1, h2, h3, h4⟩ := h
  constructor
  · simp [Runtime.SetInfo, h1, h2, h3, h4]
  · intro h0
    simp [Runtime.Unset, h0, h1, h2, h3, h4]

/-- Witness for C6 at the persistent source. -/
theorem unsupported_source_noop_witness :
    rScenario.SetInfo SourcePersistent ["x"] = rScenario ∧
    rScenario.Unset SourcePersistent = rScenario := by
  have h := unsupported_source_noop rScenario SourcePersistent ["x"]
    ⟨by decide, by decide, by decide, by decide⟩
  exact ⟨h.1, h.2 (by decide)⟩

/-- C7 counterexample: `NewRuntime` does not fail on an address that is not
valid; it returns a record carrying that invalid address with every slot
absent, so construction raises no `InvalidAddress` condition. -/
theorem NewRuntime_no_validation :
    invalidAddr.isValid = false ∧
    NewRuntime invalidAddr =
      { ip := invalidAddr, whois := none, arp := none, rdns := none,
        dhcp := none, hostsFile := none } :=
  ⟨rfl, rfl⟩

/-- C7 (amended): `NewRuntime` is total and never fails; for every address,
valid or not, it returns a record with that address and all five source
slots absent. -/
theorem NewRuntime_total (a : NetipAddr) :
    (NewRuntime a).ip = a ∧ (NewRuntime a).whois = none ∧
    (NewRuntime a).arp = none ∧ (NewRuntime a).rdns = none ∧
    (NewRuntime a).dhcp = none ∧ (NewRuntime a).hostsFile = none :=
  ⟨rfl, rfl, rfl, rfl, rfl, rfl⟩

/-- C8: `Source.string` returns the five fixed display names, the empty
string for every other value (persistent included), and `marshalText`
returns exactly the text of `Source.string` with no error. -/
theorem Source_string_spec (cs : Source) :
    Source.string SourceWHOIS = "WHOIS" ∧
    Source.string SourceARP = "ARP" ∧
    Source.string SourceRDNS = "rDNS" ∧
    Source.string SourceDHCP = "DHCP" ∧
    Source.string SourceHostsFile = "etc/hosts" ∧
    (cs ≠ SourceWHOIS → cs ≠ SourceARP → cs ≠ SourceRDNS → cs ≠ SourceDHCP →
      cs ≠ SourceHostsFile → Source.string cs = "") ∧
    Source.marshalText cs = Except.ok (Source.string cs) := by
  refine ⟨rfl, by decide, by decide, by decide, by decide, ?_, rfl⟩
  intro h1 h2 h3 h4 h5
  simp [Source.string, h1, h2, h3, h4, h5]

/-- Witness for C8 at the persistent source value. -/
theorem Source_string_spec_witness :
    Source.string SourcePersistent = "" ∧
    Source.marshalText SourcePersistent =
      Except.ok (Source.string SourcePersistent) :=
  ⟨(Source_string_spec SourcePersistent).2.2.2.2.2.1 (by decide) (by decide)
      (by decide) (by decide) (by decide),
    (Source_string_spec SourcePersistent).2.2.2.2.2.2⟩

/-- Each method call keeps the `ip` field of the record. -/
theorem applyOp_ip (r : Runtime) (op : Op) : (applyOp r op).ip = r.ip := by
  cases op <;>
    simp only [applyOp, Runtime.SetInfo, Runtime.SetWHOIS, Runtime.Unset] <;>
    split_ifs <;> rfl

/-- A sequence of method calls keeps the `ip` field of the record. -/
theorem applyOps_ip (r : Runtime) (ops : List Op) :
    (applyOps r ops).ip = r.ip := by
  induction ops generalizing r with
  | nil => rfl
  | cons op rest ih =>
    have h : applyOps r (op :: rest) = applyOps (applyOp r op) rest := rfl
    rw [h, ih, applyOp_ip]

/-- C9: after any sequence of `SetInfo`, `SetWHOIS`, `Unset`, `Info`,
`WHOIS` and `IsEmpty` calls, `Addr` still returns the address the record
was constructed with. -/
theorem Addr_immutable (a : NetipAddr) (ops : List Op) :
    (applyOps (NewRuntime a) ops).Addr = a := by
  show (applyOps (NewRuntime a) ops).ip = a
  rw [applyOps_ip]
  rfl

/-- C10: `SetWHOIS` with an absent (nil) value yields exactly the state of
`Unset` at WHOIS: the WHOIS slot reads back absent, and the record is empty
whenever the four list slots are also absent. -/
theorem SetWHOIS_nil_eq_unset (r : Runtime) :
    r.SetWHOIS none = r.Unset SourceWHOIS ∧
    (r.SetWHOIS none).getWHOIS = none ∧
    (r.arp = none → r.rdns = none → r.dhcp = none → r.hostsFile = none →
      (r.SetWHOIS none).IsEmpty = true) := by
  refine ⟨rfl, rfl, ?_⟩
  intro h1 h2 h3 h4
  simp [Runtime.IsEmpty, Runtime.SetWHOIS, h1, h2, h3, h4]

/-- Witness for C10 at a fresh record. -/
theorem SetWHOIS_nil_eq_unset_witness :
    ((NewRuntime ⟨true, 4⟩).SetWHOIS none).IsEmpty = true :=
  (SetWHOIS_nil_eq_unset (NewRuntime ⟨true, 4⟩)).2.2 rfl rfl rfl rfl

/-! ## Claims about the registry -/

/-- After a map assignment at key `a`, looking `a` up finds exactly the
assigned entry: no filtered entry still carries the key `a`. -/
theorem find?_key_after_add (l : List (NetipAddr × Runtime)) (a : NetipAddr)
    (r : Runtime) :
    ((l.filter fun p => p.1 ≠ a) ++ [(a, r)]).find? (fun p => p.1 = a) =
      some (a, r) := by
  rw [List.find?_append]
  have h1 : (l.filter fun p => p.1 ≠ a).find? (fun p => p.1 = a) = none := by
    rw [List.find?_eq_none]
    intro x hx
    have hne := (List.mem_filter.1 hx).2
    simp only [decide_not, Bool.not_eq_eq_eq_not, Bool.not_true,
      decide_eq_false_iff_not] at hne
    simp [hne]
  rw [h1]
  simp [List.find?]

/-- After a map assignment at key `a`, the entries carrying key `a` are
exactly the assigned one. -/
theorem filter_key_after_add (l : List (NetipAddr × Runtime)) (a : NetipAddr)
    (r : Runtime) :
    (((l.filter fun p => p.1 ≠ a) ++ [(a, r)]).filter fun p => p.1 = a) =
      [(a, r)] := by
  rw [List.filter_append]
  have h1 : ((l.filter fun p => p.1 ≠ a).filter fun p => p.1 = a) = [] := by
    rw [List.filter_eq_nil_iff]
    intro x hx
    have hne := (List.mem_filter.1 hx).2
    simp only [decide_not, Bool.not_eq_eq_eq_not, Bool.not_true,
      decide_eq_false_iff_not] at hne
    simp [hne]
  rw [h1]
  simp

/-- C4: inserting two records with the same address leaves exactly one
entry at that address, the second record, which lookup returns; lookup of
the first record's (equal) address also returns the second record. -/
theorem Add_overwrites (ri : RuntimeIndex) (r1 r2 : Runtime)
    (h : r1.Addr = r2.Addr) :
    ((ri.Add r1).Add r2).Client r2.Addr = some r2 ∧
    ((ri.Add r1).Add r2).Client r1.Addr = some r2 ∧
    (((ri.Add r1).Add r2).index.filter fun p => p.1 = r2.Addr).length = 1 := by
  have hc : ((ri.Add r1).Add r2).Client r2.Addr = some r2 := by
    show ((((ri.Add r1).index.filter fun p => p.1 ≠ r2.Addr) ++
      [(r2.Addr, r2)]).find? (fun p => p.1 = r2.Addr)).map Prod.snd = some r2
    rw [find?_key_after_add]
    rfl
  refine ⟨hc, ?_, ?_⟩
  · rw [h]
    exact hc
  · show ((((ri.Add r1).index.filter fun p => p.1 ≠ r2.Addr) ++
      [(r2.Addr, r2)]).filter fun p => p.1 = r2.Addr).length = 1
    rw [filter_key_after_add]
    rfl

/-- Witness for C4 at two concrete records sharing the address
`⟨true, 9⟩`. -/
theorem Add_overwrites_witness :
    ((NewRuntimeIndex.Add (NewRuntime ⟨true, 9⟩)).Add
      ((NewRuntime ⟨true, 9⟩).SetInfo SourceARP ["x"])).Client
        ((NewRuntime ⟨true, 9⟩).SetInfo SourceARP ["x"]).Addr =
      some ((NewRuntime ⟨true, 9⟩).SetInfo SourceARP ["x"]) :=
  (Add_overwrites NewRuntimeIndex (NewRuntime ⟨true, 9⟩)
    ((NewRuntime ⟨true, 9⟩).SetInfo SourceARP ["x"]) (by decide)).1

/-- The entries kept by the bulk-clear loop are exactly the cleared entries
that are not empty afterwards, in order. -/
theorem deleteBySrcLoop_fst (src : Source)
    (l : List (NetipAddr × Runtime)) :
    (deleteBySrcLoop src l).1 =
      (l.map fun q => (q.1, q.2.Unset src)).filter fun p => !p.2.IsEmpty := by
  induction l with
  | nil => rfl
  | cons x xs ih =>
    obtain ⟨xi, xr⟩ := x
    simp only [deleteBySrcLoop, List.map_cons, List.filter_cons]
    by_cases h : (xr.Unset src).IsEmpty <;> simp [h, ih]

/-- The count returned by the bulk-clear loop is the number of entries that
are empty once the source is unset. -/
theorem deleteBySrcLoop_snd (src : Source)
    (l : List (NetipAddr × Runtime)) :
    (deleteBySrcLoop src l).2 =
      (l.filter fun p => (p.2.Unset src).IsEmpty).length := by
  induction l with
  | nil => rfl
  | cons x xs ih =>
    obtain ⟨xi, xr⟩ := x
    simp only [deleteBySrcLoop, List.filter_cons]
    by_cases h : (xr.Unset src).IsEmpty <;> simp [h, ih]

/-- Every entry kept by the bulk-clear loop has a key of the input list. -/
theorem deleteBySrcLoop_keys (src : Source)
    (l : List (NetipAddr × Runtime)) (p : NetipAddr × Runtime)
    (hp : p ∈ (deleteBySrcLoop src l).1) : p.1 ∈ l.map Prod.fst := by
  rw [deleteBySrcLoop_fst] at hp
  obtain ⟨q, hq, hpq⟩ := List.mem_map.1 (List.mem_of_mem_filter hp)
  exact List.mem_map.2 ⟨q, hq, by rw [← hpq]⟩

/-- Lookup after the bulk-clear loop, assuming unique keys: the unique
entry found at `ip` before the loop is found cleared afterwards, or is gone
when clearing emptied it. -/
theorem find?_after_deleteBySrcLoop (src : Source)
    (l : List (NetipAddr × Runtime)) (ip : NetipAddr) (rc : Runtime)
    (hnd : (l.map Prod.fst).Nodup)
    (hf : l.find? (fun p => p.1 = ip) = some (ip, rc)) :
    (deleteBySrcLoop src l).1.find? (fun p => p.1 = ip) =
      if (rc.Unset src).IsEmpty then none else some (ip, rc.Unset src) := by
  induction l with
  | nil => simp at hf
  | cons x xs ih =>
    obtain ⟨xi, xr⟩ := x
    simp only [List.map_cons, List.nodup_cons] at hnd
    by_cases hx : xi = ip
    · subst hx
      rw [List.find?_cons] at hf
      rw [show (decide (xi = xi)) = true by simp] at hf
      simp only [Option.some.injEq, Prod.mk.injEq, true_and] at hf
      subst hf
      simp only [deleteBySrcLoop]
      by_cases he : (xr.Unset src).IsEmpty
      · rw [if_pos he, if_pos he]
        rw [List.find?_eq_none]
        intro q hq
        have hk := deleteBySrcLoop_keys src xs q hq
        simp only [decide_eq_true_eq]
        intro hqe
        rw [hqe] at hk
        exact hnd.1 hk
      · rw [if_neg he, if_neg he]
        rw [List.find?_cons]
        simp
    · rw [List.find?_cons] at hf
      have hxd : (decide (xi = ip)) = false := by
        simp [hx]
      rw [hxd] at hf
      simp only [cond_false] at hf
      have hrec := ih hnd.2 hf
      simp only [deleteBySrcLoop]
      by_cases he : (xr.Unset src).IsEmpty
      · rw [if_pos he]
        exact hrec
      · rw [if_neg he]
        rw [List.find?_cons, hxd]
        simpa using hrec

/-- C2: `DeleteBySrc` clears the given source's slot in every stored
record, keeps exactly the records that are non-empty after the clearing,
and returns the number of removed records; a looked-up record that
clearing empties becomes not-found, while one with another non-absent slot
stays retrievable with the source cleared. -/
theorem DeleteBySrc_spec (ri : RuntimeIndex) (src : Source)
    (ip : NetipAddr) (rc : Runtime)
    (hnd : (ri.index.map Prod.fst).Nodup)
    (hf : ri.Client ip = some rc) :
    (ri.DeleteBySrc src).1.index =
      ((ri.index.map fun q => (q.1, q.2.Unset src)).filter
        fun p => !p.2.IsEmpty) ∧
    (ri.DeleteBySrc src).2 =
      (ri.index.filter fun p => (p.2.Unset src).IsEmpty).length ∧
    ((rc.Unset src).IsEmpty = true →
      (ri.DeleteBySrc src).1.Client ip = none) ∧
    ((rc.Unset src).IsEmpty = false →
      (ri.DeleteBySrc src).1.Client ip = some (rc.Unset src)) := by
  obtain ⟨q, hq, hq2⟩ := Option.map_eq_some'.1 hf
  obtain ⟨q1, q2⟩ := q
  have hq1 : ip = q1 := by
    have h := List.find?_some hq
    have h2 : q1 = ip := by simpa using h
    exact h2.symm
  subst hq1
  simp only at hq2
  subst hq2
  have hfind := find?_after_deleteBySrcLoop src ri.index ip q2 hnd hq
  refine ⟨deleteBySrcLoop_fst src ri.index, deleteBySrcLoop_snd src ri.index,
    ?_, ?_⟩
  · intro he
    show ((deleteBySrcLoop src ri.index).1.find?
      (fun p => p.1 = ip)).map Prod.snd = none
    rw [hfind, if_pos he]
    rfl
  · intro he
    show ((deleteBySrcLoop src ri.index).1.find?
      (fun p => p.1 = ip)).map Prod.snd = some (q2.Unset src)
    rw [hfind, if_neg (by rw [he]; exact Bool.false_ne_true)]
    rfl

/-- A record whose only data is ARP, at address `⟨true, 1⟩`. -/
def rcOnlyARP : Runtime := (NewRuntime ⟨true, 1⟩).SetInfo SourceARP ["a"]

/-- A record with ARP and DHCP data, at address `⟨true, 2⟩`. -/
def rcARPDHCP : Runtime :=
  ((NewRuntime ⟨true, 2⟩).SetInfo SourceARP ["b"]).SetInfo SourceDHCP ["d"]

/-- The spec's bulk-clear scenario registry: one ARP-only record and one
record with both ARP and DHCP data. -/
def riScenario : RuntimeIndex :=
  (NewRuntimeIndex.Add rcOnlyARP).Add rcARPDHCP

/-- Witness for C2 at the spec's scenario: clearing ARP removes exactly the
ARP-only record and keeps the other with ARP cleared. -/
theorem DeleteBySrc_spec_witness :
    (riScenario.DeleteBySrc SourceARP).2 = 1 ∧
    (riScenario.DeleteBySrc SourceARP).1.Client ⟨true, 1⟩ = none ∧
    (riScenario.DeleteBySrc SourceARP).1.Client ⟨true, 2⟩ =
      some (rcARPDHCP.Unset SourceARP) := by
  have h1 := DeleteBySrc_spec riScenario SourceARP ⟨true, 1⟩ rcOnlyARP
    (by decide) (by decide)
  have h2 := DeleteBySrc_spec riScenario SourceARP ⟨true, 2⟩ rcARPDHCP
    (by decide) (by decide)
  exact ⟨h1.2.1.trans (by decide), h1.2.2.1 (by decide),
    h2.2.2.2 (by decide)⟩
